import Mathlib

/-!
# Task Scheduler Service — shallow embedding

A shallow embedding of the `TaskSchedulerService` class of the JavaScript
source, together with proofs of the specified properties.

Modelling choices:
* timestamps (`new Date()`) are natural numbers, threaded explicitly as a
  `now` argument into the operations that read the clock;
* the registry `this.tasks` (a JavaScript `Map`) is an association list
  with the `Map` operations `get`/`has`/`set`/`delete`;
* a handler is modelled by the outcome of one invocation: a value of
  `Outcome ρ` (`Outcome.error` models a raised error, carrying the
  error message); a stored handler of `none` models the `undefined`
  obtained from a non-function `task` argument without a `run` property,
  whose invocation raises a `TypeError`;
* the external cron library (`cron.validate`, the next-date computation of
  `cron.schedule(...).nextDate()`) is passed in as function parameters
  `validate` and `nextDate`; `nextDate ... = none` models a throw inside
  the library, which `calculateNextRun` turns into the current date;
* the per-task `cronTask` trigger handle is modelled by its active/stopped
  state (`cronActive`); `emit` calls are recorded in an event log;
* the `runOnStart` immediate run is dispatched through `setImmediate`,
  i.e. after `scheduleTask` returns, so it is not part of the synchronous
  state transition modelled here (the flag itself is stored faithfully).
-/

namespace TaskScheduler

/-- JavaScript `Map.prototype.get`: the value stored at key `k`, if any. -/
def mapGet? {α : Type} (m : List (String × α)) (k : String) : Option α :=
  match m with
  | [] => none
  | (k₁, v) :: rest => if k₁ = k then some v else mapGet? rest k

/-- JavaScript `Map.prototype.has`. -/
def mapHas {α : Type} (m : List (String × α)) (k : String) : Bool :=
  (mapGet? m k).isSome

/-- JavaScript `Map.prototype.set`: update in place if the key is present,
otherwise append (insertion order is preserved). -/
def mapSet {α : Type} (m : List (String × α)) (k : String) (v : α) :
    List (String × α) :=
  match m with
  | [] => [(k, v)]
  | (k₁, v₁) :: rest =>
    if k₁ = k then (k, v) :: rest else (k₁, v₁) :: mapSet rest k v

/-- JavaScript `Map.prototype.delete` (keys are unique in a `Map`, so
removing every binding of `k` is removing the binding of `k`). -/
def mapDelete {α : Type} (m : List (String × α)) (k : String) :
    List (String × α) :=
  match m with
  | [] => []
  | (k₁, v₁) :: rest =>
    if k₁ = k then mapDelete rest k else (k₁, v₁) :: mapDelete rest k

/-- Per-task run statistics (`taskObj.stats`). -/
structure TaskStats where
  runs : Nat
  errors : Nat
deriving DecidableEq

/-- Effective task options (`taskObj.options` after defaulting). -/
structure TaskOptions where
  timezone : String
  runOnStart : Bool
deriving DecidableEq

/-- The caller-supplied `options` argument; `Option` models whether the
caller provided the field. -/
structure OptionsArg where
  timezone : Option String
  runOnStart : Option Bool
deriving DecidableEq

/-- `{ timezone: options.timezone || 'UTC', runOnStart: options.runOnStart
|| false, ...options }`. -/
def OptionsArg.effective (o : OptionsArg) : TaskOptions :=
  { timezone := o.timezone.getD "UTC", runOnStart := o.runOnStart.getD false }

/-- The outcome of one handler invocation: the value the handler resolves
with, or the message of the error it raises. -/
inductive Outcome (ρ : Type) where
  | ok (r : ρ)
  | error (e : String)
deriving DecidableEq

/-- The `task` argument of `scheduleTask`: either a function value, or a
non-function value whose `run` property may be `undefined` (`none`). -/
inductive HandlerArg (ρ : Type) where
  | func (f : Outcome ρ)
  | obj (r : Option (Outcome ρ))
deriving DecidableEq

/-- `typeof task === 'function' ? task : task.run`. -/
def HandlerArg.extract {ρ : Type} : HandlerArg ρ → Option (Outcome ρ)
  | .func f => some f
  | .obj r => r

/-- A task record as stored in `this.tasks`.  The `cronTask` trigger handle
is modelled by its active/stopped state `cronActive`. -/
structure Task (ρ : Type) where
  id : String
  schedule : String
  task : Option (Outcome ρ)
  options : TaskOptions
  status : String
  created : Nat
  lastRun : Option Nat
  nextRun : Option Nat
  stats : TaskStats
  lastResult : Option ρ
  lastError : Option String
  cronActive : Bool
deriving DecidableEq

/-- Service-wide counters (`this.stats`). -/
structure Stats where
  scheduled : Nat
  running : Nat
  completed : Nat
  failed : Nat
  cancelled : Nat
deriving DecidableEq

/-- The whole `TaskSchedulerService` state (`this.options.maxTasks`,
`this.tasks`, `this.stats`), plus a log of the `emit` calls in order,
each recorded as `(event name, taskId)`. -/
structure SchedulerState (ρ : Type) where
  maxTasks : Nat
  tasks : List (String × Task ρ)
  stats : Stats
  events : List (String × String)
deriving DecidableEq

/-- Result of `scheduleTask`: `{success:true, taskId, nextRun}` or
`{success:false, error}`. -/
inductive ScheduleResult where
  | ok (taskId : String) (nextRun : Nat)
  | err (error : String)
deriving DecidableEq

/-- Result of `runTask`: `{success:true, taskId, result}`,
`{success:false, taskId, error}` (handler failure), or
`{success:false, error}` (task not found). -/
inductive RunResult (ρ : Type) where
  | ok (taskId : String) (result : ρ)
  | fail (taskId : String) (error : String)
  | err (error : String)
deriving DecidableEq

/-- Result of `cancelTask` / `deleteTask`. -/
inductive OpResult where
  | ok (taskId : String)
  | err (error : String)
deriving DecidableEq

/-- The read-only projection of a task returned by `getTaskInfo` and
`listTasks` (excluding the handler and the trigger handle). -/
structure TaskView (ρ : Type) where
  id : String
  schedule : String
  status : String
  created : Nat
  lastRun : Option Nat
  nextRun : Option Nat
  options : TaskOptions
  stats : TaskStats
deriving DecidableEq

/-- Result of `getTaskInfo`. -/
inductive InfoResult (ρ : Type) where
  | ok (task : TaskView ρ)
  | err (error : String)
deriving DecidableEq

/-- Result of `getStats`: the counters spread together with `taskCount`
and `maxTasks`. -/
structure StatsView where
  scheduled : Nat
  running : Nat
  completed : Nat
  failed : Nat
  cancelled : Nat
  taskCount : Nat
  maxTasks : Nat
deriving DecidableEq

/-- `calculateNextRun(schedule, timezone)`: ask the cron library for the
next date; the `catch` branch returns the current date (`new Date()`). -/
def calculateNextRun (nextDate : String → String → Nat → Option Nat)
    (schedule timezone : String) (now : Nat) : Nat :=
  match nextDate schedule timezone now with
  | some d => d
  | none => now

/-- `scheduleTask(taskId, schedule, task, options)`.  The three guards are
checked in source order: duplicate id, task limit (`this.tasks.size >=
this.options.maxTasks`), cron validation; then the task object is created
with `status: 'scheduled'`, the trigger is started, the object is stored,
`stats.scheduled` is incremented, `nextRun` is computed and the
`task:scheduled` event is emitted. -/
def scheduleTask {ρ : Type} (validate : String → Bool)
    (nextDate : String → String → Nat → Option Nat)
    (s : SchedulerState ρ) (taskId schedule : String)
    (task : HandlerArg ρ) (options : OptionsArg) (now : Nat) :
    SchedulerState ρ × ScheduleResult :=
  if mapHas s.tasks taskId then
    (s, .err "Task ID already exists")
  else if s.maxTasks ≤ s.tasks.length then
    (s, .err "Maximum task limit reached")
  else if !(validate schedule) then
    (s, .err "Invalid cron schedule expression")
  else
    let opts := options.effective
    let nr := calculateNextRun nextDate schedule opts.timezone now
    let t : Task ρ :=
      { id := taskId, schedule := schedule, task := task.extract,
        options := opts, status := "scheduled", created := now,
        lastRun := none, nextRun := some nr,
        stats := { runs := 0, errors := 0 },
        lastResult := none, lastError := none, cronActive := true }
    ({ s with
        tasks := mapSet s.tasks taskId t,
        stats := { s.stats with scheduled := s.stats.scheduled + 1 },
        events := s.events ++ [("task:scheduled", taskId)] },
     .ok taskId nr)

/-- The task record right after `runTask` has marked it running
(`taskObj.status = 'running'; taskObj.lastRun = new Date()`). -/
def Task.markRunning {ρ : Type} (t : Task ρ) (now : Nat) : Task ρ :=
  { t with status := "running", lastRun := some now }

/-- The inner `catch` branch of `runTask`: `stats.errors++`,
`status = 'failed'`, `lastError` recorded, service `running--` and
`failed++`, `nextRun` recomputed, `task:failed` emitted. -/
def runTaskFailure {ρ : Type} (nextDate : String → String → Nat → Option Nat)
    (s₁ : SchedulerState ρ) (taskId : String) (t₁ : Task ρ) (e : String)
    (now : Nat) : SchedulerState ρ × RunResult ρ :=
  let t₂ : Task ρ :=
    { t₁ with
        stats := { t₁.stats with errors := t₁.stats.errors + 1 },
        status := "failed", lastError := some e,
        nextRun := some (calculateNextRun nextDate t₁.schedule
          t₁.options.timezone now) }
  ({ s₁ with
      tasks := mapSet s₁.tasks taskId t₂,
      stats := { s₁.stats with
        running := s₁.stats.running - 1,
        failed := s₁.stats.failed + 1 },
      events := s₁.events ++ [("task:failed", taskId)] },
   .fail taskId e)

/-- `runTask(taskId)`: look the task up (`TaskNotFound` if absent), mark it
running and emit `task:running`, then invoke the stored handler and take
the success or the failure branch.  Invoking a stored handler of `none`
(an `undefined` `taskObj.task`) raises a `TypeError`, which the same
`catch` branch handles. -/
def runTask {ρ : Type} (nextDate : String → String → Nat → Option Nat)
    (s : SchedulerState ρ) (taskId : String) (now : Nat) :
    SchedulerState ρ × RunResult ρ :=
  match mapGet? s.tasks taskId with
  | none => (s, .err "Task not found")
  | some t =>
    let t₁ := t.markRunning now
    let s₁ : SchedulerState ρ :=
      { s with
          tasks := mapSet s.tasks taskId t₁,
          stats := { s.stats with running := s.stats.running + 1 },
          events := s.events ++ [("task:running", taskId)] }
    match t₁.task with
    | some (.ok r) =>
      let t₂ : Task ρ :=
        { t₁ with
            stats := { t₁.stats with runs := t₁.stats.runs + 1 },
            status := "completed", lastResult := some r,
            nextRun := some (calculateNextRun nextDate t₁.schedule
              t₁.options.timezone now) }
      ({ s₁ with
          tasks := mapSet s₁.tasks taskId t₂,
          stats := { s₁.stats with
            running := s₁.stats.running - 1,
            completed := s₁.stats.completed + 1 },
          events := s₁.events ++ [("task:completed", taskId)] },
       .ok taskId r)
    | some (.error e) => runTaskFailure nextDate s₁ taskId t₁ e now
    | none => runTaskFailure nextDate s₁ taskId t₁
        "taskObj.task is not a function" now

/-- `cancelTask(taskId)`: stop the trigger, set `status = 'cancelled'`,
increment `stats.cancelled`, emit `task:cancelled`.  The record stays in
the registry. -/
def cancelTask {ρ : Type} (s : SchedulerState ρ) (taskId : String) :
    SchedulerState ρ × OpResult :=
  match mapGet? s.tasks taskId with
  | none => (s, .err "Task not found")
  | some t =>
    let t₁ : Task ρ := { t with cronActive := false, status := "cancelled" }
    ({ s with
        tasks := mapSet s.tasks taskId t₁,
        stats := { s.stats with cancelled := s.stats.cancelled + 1 },
        events := s.events ++ [("task:cancelled", taskId)] },
     .ok taskId)

/-- `deleteTask(taskId)`: stop the trigger, remove the record from the
registry, emit `task:deleted`.  No counter of `this.stats` is touched.
(The stopped trigger handle is owned by the removed record, so the stop
leaves no trace in the remaining state.) -/
def deleteTask {ρ : Type} (s : SchedulerState ρ) (taskId : String) :
    SchedulerState ρ × OpResult :=
  match mapGet? s.tasks taskId with
  | none => (s, .err "Task not found")
  | some _ =>
    ({ s with
        tasks := mapDelete s.tasks taskId,
        events := s.events ++ [("task:deleted", taskId)] },
     .ok taskId)

/-- The projection of a task returned by `getTaskInfo` / `listTasks`. -/
def Task.view {ρ : Type} (t : Task ρ) : TaskView ρ :=
  { id := t.id, schedule := t.schedule, status := t.status,
    created := t.created, lastRun := t.lastRun, nextRun := t.nextRun,
    options := t.options, stats := t.stats }

/-- `getTaskInfo(taskId)`. -/
def getTaskInfo {ρ : Type} (s : SchedulerState ρ) (taskId : String) :
    InfoResult ρ :=
  match mapGet? s.tasks taskId with
  | none => .err "Task not found"
  | some t => .ok t.view

/-- `listTasks()`. -/
def listTasks {ρ : Type} (s : SchedulerState ρ) : List (TaskView ρ) :=
  s.tasks.map (fun p => p.2.view)

/-- `getStats()`. -/
def getStats {ρ : Type} (s : SchedulerState ρ) : StatsView :=
  { scheduled := s.stats.scheduled, running := s.stats.running,
    completed := s.stats.completed, failed := s.stats.failed,
    cancelled := s.stats.cancelled, taskCount := s.tasks.length,
    maxTasks := s.maxTasks }

/-- Modelled from the spec: the Next-Run Calculator of the external cron
library (`cron.schedule(...).nextDate()`, not under src/): "the earliest
timestamp strictly greater than `from` that matchesP the expression
evaluated in `timezone`", here computed by a bounded search above the
reference time over an abstract matching predicate (`none` when no match
exists within the bound, modelling an internal failure). -/
def nextMatch (matchesP : Nat → Bool) : Nat → Nat → Option Nat
  | _, 0 => none
  | t, fuel + 1 =>
    if matchesP (t + 1) then some (t + 1) else nextMatch matchesP (t + 1) fuel

/-- Modelled from the spec: the cron library next-date computation induced
by a per-expression, per-timezone matching predicate on timestamps. -/
def nextDateOf (matchesP : String → String → Nat → Bool) (fuel : Nat)
    (schedule timezone : String) (now : Nat) : Option Nat :=
  nextMatch (matchesP schedule timezone) now fuel

/-! ## Lemmas about the `Map` model -/

theorem mapGet?_set_self {α : Type} (m : List (String × α)) (k : String)
    (v : α) : mapGet? (mapSet m k v) k = some v := by
  induction m with
  | nil => simp [mapSet, mapGet?]
  | cons p rest ih =>
    obtain ⟨k₁, v₁⟩ := p
    by_cases h : k₁ = k
    · simp [mapSet, mapGet?, h]
    · simp [mapSet, mapGet?, h, ih]

theorem mapGet?_set_other {α : Type} (m : List (String × α)) (k k₂ : String)
    (v : α) (h : k₂ ≠ k) : mapGet? (mapSet m k v) k₂ = mapGet? m k₂ := by
  induction m with
  | nil => simp [mapSet, mapGet?, Ne.symm h]
  | cons p rest ih =>
    obtain ⟨k₁, v₁⟩ := p
    by_cases h₁ : k₁ = k
    · subst h₁
      simp [mapSet, mapGet?, Ne.symm h]
    · simp only [mapSet, if_neg h₁, mapGet?]
      by_cases h₂ : k₁ = k₂
      · simp [h₂]
      · simp [h₂, ih]

theorem mapHas_set_self {α : Type} (m : List (String × α)) (k : String)
    (v : α) : mapHas (mapSet m k v) k = true := by
  simp [mapHas, mapGet?_set_self]

theorem length_mapSet_of_has {α : Type} (m : List (String × α)) (k : String)
    (v : α) (h : mapHas m k = true) : (mapSet m k v).length = m.length := by
  induction m with
  | nil => simp [mapHas, mapGet?] at h
  | cons p rest ih =>
    obtain ⟨k₁, v₁⟩ := p
    by_cases h₁ : k₁ = k
    · simp [mapSet, h₁]
    · simp only [mapHas, mapGet?, if_neg h₁] at h
      simp [mapSet, if_neg h₁, ih h]

theorem length_mapSet_of_not_has {α : Type} (m : List (String × α))
    (k : String) (v : α) (h : mapHas m k = false) :
    (mapSet m k v).length = m.length + 1 := by
  induction m with
  | nil => simp [mapSet]
  | cons p rest ih =>
    obtain ⟨k₁, v₁⟩ := p
    by_cases h₁ : k₁ = k
    · simp [mapHas, mapGet?, h₁] at h
    · simp only [mapHas, mapGet?, if_neg h₁] at h
      simp [mapSet, if_neg h₁, ih h]

theorem length_mapDelete_le {α : Type} (m : List (String × α)) (k : String) :
    (mapDelete m k).length ≤ m.length := by
  induction m with
  | nil => simp [mapDelete]
  | cons p rest ih =>
    obtain ⟨k₁, v₁⟩ := p
    by_cases h₁ : k₁ = k
    · simp only [mapDelete, if_pos h₁]
      exact Nat.le_succ_of_le ih
    · simpa [mapDelete, if_neg h₁] using ih

theorem mapGet?_delete_self {α : Type} (m : List (String × α)) (k : String) :
    mapGet? (mapDelete m k) k = none := by
  induction m with
  | nil => simp [mapDelete, mapGet?]
  | cons p rest ih =>
    obtain ⟨k₁, v₁⟩ := p
    by_cases h₁ : k₁ = k
    · simpa [mapDelete, if_pos h₁] using ih
    · simp [mapDelete, if_neg h₁, mapGet?, h₁, ih]

theorem length_mapSet_set_of_has {α : Type} (m : List (String × α))
    (k : String) (v₁ v₂ : α) (h : mapHas m k = true) :
    (mapSet (mapSet m k v₁) k v₂).length = m.length := by
  rw [length_mapSet_of_has _ _ _ (mapHas_set_self _ _ _),
    length_mapSet_of_has _ _ _ h]

/-! ## Behaviour lemmas shared by the claim proofs -/

theorem getTaskInfo_not_found {ρ : Type} (s : SchedulerState ρ)
    (taskId : String) (h : mapGet? s.tasks taskId = none) :
    getTaskInfo s taskId = InfoResult.err "Task not found" := by
  unfold getTaskInfo
  rw [h]

theorem runTask_not_found {ρ : Type}
    (nextDate : String → String → Nat → Option Nat) (s : SchedulerState ρ)
    (taskId : String) (now : Nat) (h : mapGet? s.tasks taskId = none) :
    runTask nextDate s taskId now = (s, RunResult.err "Task not found") := by
  unfold runTask
  rw [h]

theorem cancelTask_not_found {ρ : Type} (s : SchedulerState ρ)
    (taskId : String) (h : mapGet? s.tasks taskId = none) :
    cancelTask s taskId = (s, OpResult.err "Task not found") := by
  unfold cancelTask
  rw [h]

theorem deleteTask_not_found {ρ : Type} (s : SchedulerState ρ)
    (taskId : String) (h : mapGet? s.tasks taskId = none) :
    deleteTask s taskId = (s, OpResult.err "Task not found") := by
  unfold deleteTask
  rw [h]

/-- When all three guards pass, `scheduleTask` stores the new task record
and reports the computed next run. -/
theorem scheduleTask_success {ρ : Type} (validate : String → Bool)
    (nextDate : String → String → Nat → Option Nat)
    (s : SchedulerState ρ) (taskId schedule : String)
    (task : HandlerArg ρ) (options : OptionsArg) (now : Nat)
    (hd : mapHas s.tasks taskId = false)
    (hl : s.tasks.length < s.maxTasks)
    (hv : validate schedule = true) :
    scheduleTask validate nextDate s taskId schedule task options now =
      ({ s with
          tasks := mapSet s.tasks taskId
            { id := taskId, schedule := schedule, task := task.extract,
              options := options.effective, status := "scheduled",
              created := now, lastRun := none,
              nextRun := some (calculateNextRun nextDate schedule
                (options.effective).timezone now),
              stats := { runs := 0, errors := 0 },
              lastResult := none, lastError := none, cronActive := true },
          stats := { s.stats with scheduled := s.stats.scheduled + 1 },
          events := s.events ++ [("task:scheduled", taskId)] },
       ScheduleResult.ok taskId (calculateNextRun nextDate schedule
         (options.effective).timezone now)) := by
  unfold scheduleTask
  simp [hd, hv, Nat.not_le.mpr hl]

/-! ## Concrete fixtures used by the witnesses -/

/-- A next-date function for witnesses: the following timestamp. -/
def succNext : String → String → Nat → Option Nat := fun _ _ t => some (t + 1)

/-- A validator for witnesses that accepts every expression. -/
def allValid : String → Bool := fun _ => true

/-- A sample task whose handler resolves with `7`. -/
def okTask : Task Nat :=
  { id := "t1", schedule := "* * * * *", task := some (.ok 7),
    options := { timezone := "UTC", runOnStart := false },
    status := "scheduled", created := 0, lastRun := none, nextRun := some 1,
    stats := { runs := 0, errors := 0 }, lastResult := none,
    lastError := none, cronActive := true }

/-- A sample task whose handler raises `"boom"`. -/
def errTask : Task Nat :=
  { okTask with id := "t2", task := some (.error "boom") }

/-- A sample service state holding `okTask` and `errTask`. -/
def sampleState : SchedulerState Nat :=
  { maxTasks := 100,
    tasks := [("t1", okTask), ("t2", errTask)],
    stats := { scheduled := 2, running := 0, completed := 0, failed := 0,
               cancelled := 0 },
    events := [] }

/-! ## The claims -/

/-- C1: for every registered task whose handler resolves successfully,
`runTask(taskId)` returns a success result carrying the taskId and the
handler result, sets the task status to `"completed"`, increments
`perTaskStats.runs` by exactly 1, leaves `perTaskStats.errors` unchanged,
records `lastResult`, brings the service `running` counter back to its
prior value, increments the service `completed` counter by 1 and
recomputes `nextRun`. -/
theorem C1_runTask_success {ρ : Type}
    (nextDate : String → String → Nat → Option Nat)
    (s : SchedulerState ρ) (taskId : String) (now : Nat)
    (t : Task ρ) (r : ρ)
    (ht : mapGet? s.tasks taskId = some t)
    (hh : t.task = some (Outcome.ok r)) :
    (runTask nextDate s taskId now).2 = RunResult.ok taskId r ∧
    (∃ t₂, mapGet? (runTask nextDate s taskId now).1.tasks taskId = some t₂ ∧
      t₂.status = "completed" ∧
      t₂.stats.runs = t.stats.runs + 1 ∧
      t₂.stats.errors = t.stats.errors ∧
      t₂.lastResult = some r ∧
      t₂.nextRun = some (calculateNextRun nextDate t.schedule
        t.options.timezone now)) ∧
    (runTask nextDate s taskId now).1.stats.running = s.stats.running ∧
    (runTask nextDate s taskId now).1.stats.completed
      = s.stats.completed + 1 := by
  unfold runTask
  rw [ht]
  dsimp only [Task.markRunning]
  rw [hh]
  exact ⟨rfl, ⟨_, mapGet?_set_self _ _ _, rfl, rfl, rfl, rfl, rfl⟩, rfl, rfl⟩

/-- Witness for C1: running `"t1"` of `sampleState`, whose handler
resolves with `7`. -/
theorem C1_runTask_success_witness :
    mapGet? sampleState.tasks "t1" = some okTask ∧
    okTask.task = some (Outcome.ok 7) ∧
    (runTask succNext sampleState "t1" 5).2 = RunResult.ok "t1" 7 :=
  ⟨rfl, rfl,
    (C1_runTask_success succNext sampleState "t1" 5 okTask 7 rfl rfl).1⟩

/-- C2: for every registered task whose handler raises, `runTask(taskId)`
returns a failure result, sets the status to `"failed"`, increments
`perTaskStats.errors` by exactly 1, records the message in `lastError`,
increments the service `failed` counter by 1 while `running` returns to
its prior value, recomputes `nextRun`, and neither removes the task nor
touches any other task record or the remaining counters. -/
theorem C2_runTask_failure {ρ : Type}
    (nextDate : String → String → Nat → Option Nat)
    (s : SchedulerState ρ) (taskId : String) (now : Nat)
    (t : Task ρ) (e : String)
    (ht : mapGet? s.tasks taskId = some t)
    (hh : t.task = some (Outcome.error e)) :
    (runTask nextDate s taskId now).2 = RunResult.fail taskId e ∧
    (∃ t₂, mapGet? (runTask nextDate s taskId now).1.tasks taskId = some t₂ ∧
      t₂.status = "failed" ∧
      t₂.stats.errors = t.stats.errors + 1 ∧
      t₂.stats.runs = t.stats.runs ∧
      t₂.lastError = some e ∧
      t₂.nextRun = some (calculateNextRun nextDate t.schedule
        t.options.timezone now)) ∧
    (runTask nextDate s taskId now).1.stats.failed = s.stats.failed + 1 ∧
    (runTask nextDate s taskId now).1.stats.running = s.stats.running ∧
    (runTask nextDate s taskId now).1.stats.scheduled = s.stats.scheduled ∧
    (runTask nextDate s taskId now).1.stats.completed = s.stats.completed ∧
    (runTask nextDate s taskId now).1.stats.cancelled = s.stats.cancelled ∧
    (∀ otherId, otherId ≠ taskId →
      mapGet? (runTask nextDate s taskId now).1.tasks otherId
        = mapGet? s.tasks otherId) := by
  unfold runTask
  rw [ht]
  dsimp only [Task.markRunning]
  rw [hh]
  dsimp only [runTaskFailure]
  refine ⟨rfl, ⟨_, mapGet?_set_self _ _ _, rfl, rfl, rfl, rfl, rfl⟩,
    rfl, rfl, rfl, rfl, rfl, ?_⟩
  intro otherId hne
  rw [mapGet?_set_other _ _ _ _ hne, mapGet?_set_other _ _ _ _ hne]

/-- Witness for C2: running `"t2"` of `sampleState`, whose handler raises
`"boom"`. -/
theorem C2_runTask_failure_witness :
    mapGet? sampleState.tasks "t2" = some errTask ∧
    errTask.task = some (Outcome.error "boom") ∧
    (runTask succNext sampleState "t2" 5).2 = RunResult.fail "t2" "boom" :=
  ⟨rfl, rfl,
    (C2_runTask_failure succNext sampleState "t2" 5 errTask "boom"
      rfl rfl).1⟩

/-- C3: scheduling an already-registered taskId fails with the
duplicate-id error and returns the state unchanged, so the registry
retains exactly the first task's configuration. -/
theorem C3_duplicate_schedule {ρ : Type} (validate : String → Bool)
    (nextDate : String → String → Nat → Option Nat)
    (s : SchedulerState ρ) (taskId schedule : String)
    (task : HandlerArg ρ) (options : OptionsArg) (now : Nat)
    (h : mapHas s.tasks taskId = true) :
    scheduleTask validate nextDate s taskId schedule task options now
      = (s, ScheduleResult.err "Task ID already exists") := by
  unfold scheduleTask
  simp [h]

/-- Witness for C3: re-scheduling `"t1"`, which `sampleState` already
holds. -/
theorem C3_duplicate_schedule_witness :
    mapHas sampleState.tasks "t1" = true ∧
    scheduleTask allValid succNext sampleState "t1" "0 0 * * *"
        (HandlerArg.func (Outcome.ok 9)) ⟨none, none⟩ 3
      = (sampleState, ScheduleResult.err "Task ID already exists") :=
  ⟨rfl,
    C3_duplicate_schedule allValid succNext sampleState "t1" "0 0 * * *"
      (HandlerArg.func (Outcome.ok 9)) ⟨none, none⟩ 3 rfl⟩

/-- `runTask` never changes the number of registered tasks or the
configured ceiling. -/
theorem runTask_preserves_size {ρ : Type}
    (nextDate : String → String → Nat → Option Nat)
    (s : SchedulerState ρ) (taskId : String) (now : Nat) :
    (runTask nextDate s taskId now).1.tasks.length = s.tasks.length ∧
    (runTask nextDate s taskId now).1.maxTasks = s.maxTasks := by
  unfold runTask
  cases hg : mapGet? s.tasks taskId with
  | none => exact ⟨rfl, rfl⟩
  | some t =>
    have hhas : mapHas s.tasks taskId = true := by simp [mapHas, hg]
    dsimp only [Task.markRunning]
    cases t.task with
    | none =>
      dsimp only [runTaskFailure]
      exact ⟨length_mapSet_set_of_has _ _ _ _ hhas, rfl⟩
    | some o =>
      cases o with
      | ok r => exact ⟨length_mapSet_set_of_has _ _ _ _ hhas, rfl⟩
      | error e =>
        dsimp only [runTaskFailure]
        exact ⟨length_mapSet_set_of_has _ _ _ _ hhas, rfl⟩

/-- `cancelTask` never changes the number of registered tasks or the
configured ceiling. -/
theorem cancelTask_preserves_size {ρ : Type} (s : SchedulerState ρ)
    (taskId : String) :
    (cancelTask s taskId).1.tasks.length = s.tasks.length ∧
    (cancelTask s taskId).1.maxTasks = s.maxTasks := by
  unfold cancelTask
  cases hg : mapGet? s.tasks taskId with
  | none => exact ⟨rfl, rfl⟩
  | some t =>
    have hhas : mapHas s.tasks taskId = true := by simp [mapHas, hg]
    exact ⟨length_mapSet_of_has _ _ _ hhas, rfl⟩

/-- `deleteTask` never grows the registry and keeps the ceiling. -/
theorem deleteTask_size_le {ρ : Type} (s : SchedulerState ρ)
    (taskId : String) :
    (deleteTask s taskId).1.tasks.length ≤ s.tasks.length ∧
    (deleteTask s taskId).1.maxTasks = s.maxTasks := by
  unfold deleteTask
  cases mapGet? s.tasks taskId with
  | none => exact ⟨Nat.le_refl _, rfl⟩
  | some t => exact ⟨length_mapDelete_le _ _, rfl⟩

/-- `scheduleTask` keeps the registry within the configured ceiling. -/
theorem scheduleTask_size_le {ρ : Type} (validate : String → Bool)
    (nextDate : String → String → Nat → Option Nat)
    (s : SchedulerState ρ) (taskId schedule : String)
    (task : HandlerArg ρ) (options : OptionsArg) (now : Nat)
    (hle : s.tasks.length ≤ s.maxTasks) :
    (scheduleTask validate nextDate s taskId schedule task options
        now).1.tasks.length
      ≤ (scheduleTask validate nextDate s taskId schedule task options
        now).1.maxTasks := by
  by_cases h₁ : mapHas s.tasks taskId = true
  · have hdup : scheduleTask validate nextDate s taskId schedule task
        options now = (s, ScheduleResult.err "Task ID already exists") := by
      unfold scheduleTask
      simp [h₁]
    rw [hdup]
    exact hle
  · have h₁f : mapHas s.tasks taskId = false := by
      simpa using h₁
    by_cases h₂ : s.maxTasks ≤ s.tasks.length
    · unfold scheduleTask
      simp only [h₁f, Bool.false_eq_true, if_false, if_pos h₂]
      exact hle
    · by_cases h₃ : validate schedule = true
      · rw [scheduleTask_success validate nextDate s taskId schedule task
          options now h₁f (Nat.lt_of_not_le h₂) h₃]
        simpa [length_mapSet_of_not_has _ _ _ h₁f]
          using Nat.lt_of_not_le h₂
      · unfold scheduleTask
        simp only [h₁f, Bool.false_eq_true, if_false, if_neg h₂]
        have h₃f : validate schedule = false := by
          simpa using h₃
        simp only [h₃f, Bool.not_false, if_true]
        exact hle

/-- A sample state already at its capacity of two tasks. -/
def fullState : SchedulerState Nat := { sampleState with maxTasks := 2 }

/-- The freshly constructed service state. -/
def emptyState : SchedulerState Nat :=
  { maxTasks := 100,
    tasks := [],
    stats := { scheduled := 0, running := 0, completed := 0, failed := 0,
               cancelled := 0 },
    events := [] }

/-- A validator for witnesses that rejects every expression. -/
def rejectAll : String → Bool := fun _ => false

/-- C4: at capacity (`taskCount = maxTasks`) `scheduleTask` fails without
changing the state — reporting the task-limit error whenever the taskId is
not the one guard that fires earlier, a duplicate — and under every
`scheduleTask`/`runTask`/`cancelTask`/`deleteTask` step the registry size
never exceeds the configured maximum. -/
theorem C4_task_limit {ρ : Type} (validate : String → Bool)
    (nextDate : String → String → Nat → Option Nat)
    (s : SchedulerState ρ) (taskId schedule : String)
    (task : HandlerArg ρ) (options : OptionsArg) (now : Nat)
    (hfull : s.tasks.length = s.maxTasks) :
    ((scheduleTask validate nextDate s taskId schedule task options now).1
        = s ∧
     ∃ e, (scheduleTask validate nextDate s taskId schedule task options
        now).2 = ScheduleResult.err e) ∧
    (mapHas s.tasks taskId = false →
      scheduleTask validate nextDate s taskId schedule task options now
        = (s, ScheduleResult.err "Maximum task limit reached")) ∧
    (∀ (s₀ : SchedulerState ρ) (id₀ sch₀ : String) (tk₀ : HandlerArg ρ)
       (op₀ : OptionsArg) (n₀ : Nat), s₀.tasks.length ≤ s₀.maxTasks →
      (scheduleTask validate nextDate s₀ id₀ sch₀ tk₀ op₀ n₀).1.tasks.length
        ≤ (scheduleTask validate nextDate s₀ id₀ sch₀ tk₀ op₀
            n₀).1.maxTasks ∧
      (runTask nextDate s₀ id₀ n₀).1.tasks.length
        ≤ (runTask nextDate s₀ id₀ n₀).1.maxTasks ∧
      (cancelTask s₀ id₀).1.tasks.length ≤ (cancelTask s₀ id₀).1.maxTasks ∧
      (deleteTask s₀ id₀).1.tasks.length
        ≤ (deleteTask s₀ id₀).1.maxTasks) := by
  have hge : s.maxTasks ≤ s.tasks.length := Nat.le_of_eq hfull.symm
  have hlim : mapHas s.tasks taskId = false →
      scheduleTask validate nextDate s taskId schedule task options now
        = (s, ScheduleResult.err "Maximum task limit reached") := by
    intro hno
    unfold scheduleTask
    simp [hno, hge]
  refine ⟨?_, hlim, ?_⟩
  · by_cases h₁ : mapHas s.tasks taskId = true
    · have hdup : scheduleTask validate nextDate s taskId schedule task
          options now
            = (s, ScheduleResult.err "Task ID already exists") := by
        unfold scheduleTask
        simp [h₁]
      rw [hdup]
      exact ⟨rfl, _, rfl⟩
    · rw [hlim (by simpa using h₁)]
      exact ⟨rfl, _, rfl⟩
  · intro s₀ id₀ sch₀ tk₀ op₀ n₀ hle
    refine ⟨scheduleTask_size_le validate nextDate s₀ id₀ sch₀ tk₀ op₀ n₀
      hle, ?_, ?_, ?_⟩
    · have h := runTask_preserves_size nextDate s₀ id₀ n₀
      rw [h.1, h.2]
      exact hle
    · have h := cancelTask_preserves_size s₀ id₀
      rw [h.1, h.2]
      exact hle
    · have h := deleteTask_size_le s₀ id₀
      rw [h.2]
      exact Nat.le_trans h.1 hle

/-- Witness for C4: `fullState` holds two tasks with `maxTasks = 2`;
scheduling the fresh id `"t3"` fails with the limit error. -/
theorem C4_task_limit_witness :
    fullState.tasks.length = fullState.maxTasks ∧
    mapHas fullState.tasks "t3" = false ∧
    scheduleTask allValid succNext fullState "t3" "* * * * *"
        (HandlerArg.func (Outcome.ok 0)) ⟨none, none⟩ 0
      = (fullState, ScheduleResult.err "Maximum task limit reached") :=
  ⟨rfl, rfl,
    (C4_task_limit allValid succNext fullState "t3" "* * * * *"
      (HandlerArg.func (Outcome.ok 0)) ⟨none, none⟩ 0 rfl).2.1 rfl⟩

/-- C5: a string that fails cron validation never enters the registry:
`scheduleTask` returns the state unchanged (no task record, no trigger, no
counter change, no event) and fails, reporting the invalid-expression
error whenever no earlier guard fires. -/
theorem C5_invalid_expression {ρ : Type} (validate : String → Bool)
    (nextDate : String → String → Nat → Option Nat)
    (s : SchedulerState ρ) (taskId schedule : String)
    (task : HandlerArg ρ) (options : OptionsArg) (now : Nat)
    (hv : validate schedule = false) :
    ((scheduleTask validate nextDate s taskId schedule task options now).1
        = s ∧
     ∃ e, (scheduleTask validate nextDate s taskId schedule task options
        now).2 = ScheduleResult.err e) ∧
    (mapHas s.tasks taskId = false → s.tasks.length < s.maxTasks →
      scheduleTask validate nextDate s taskId schedule task options now
        = (s, ScheduleResult.err "Invalid cron schedule expression")) := by
  constructor
  · by_cases h₁ : mapHas s.tasks taskId = true
    · have hdup : scheduleTask validate nextDate s taskId schedule task
          options now
            = (s, ScheduleResult.err "Task ID already exists") := by
        unfold scheduleTask
        simp [h₁]
      rw [hdup]
      exact ⟨rfl, _, rfl⟩
    · by_cases h₂ : s.maxTasks ≤ s.tasks.length
      · have hlim : scheduleTask validate nextDate s taskId schedule task
            options now
              = (s, ScheduleResult.err "Maximum task limit reached") := by
          unfold scheduleTask
          simp [(by simpa using h₁ : mapHas s.tasks taskId = false), h₂]
        rw [hlim]
        exact ⟨rfl, _, rfl⟩
      · have hinv : scheduleTask validate nextDate s taskId schedule task
            options now
              = (s, ScheduleResult.err "Invalid cron schedule expression") := by
          unfold scheduleTask
          simp [(by simpa using h₁ : mapHas s.tasks taskId = false), h₂, hv]
        rw [hinv]
        exact ⟨rfl, _, rfl⟩
  · intro hno hlt
    unfold scheduleTask
    simp [hno, Nat.not_le.mpr hlt, hv]

/-- Witness for C5: scheduling `"t1"` on the empty state with a validator
that rejects the expression. -/
theorem C5_invalid_expression_witness :
    rejectAll "not a cron expr" = false ∧
    mapHas emptyState.tasks "t1" = false ∧
    emptyState.tasks.length < emptyState.maxTasks ∧
    scheduleTask rejectAll succNext emptyState "t1" "not a cron expr"
        (HandlerArg.func (Outcome.ok 0)) ⟨none, none⟩ 0
      = (emptyState, ScheduleResult.err "Invalid cron schedule expression") :=
  ⟨rfl, rfl, by decide,
    (C5_invalid_expression rejectAll succNext emptyState "t1"
      "not a cron expr" (HandlerArg.func (Outcome.ok 0)) ⟨none, none⟩ 0
      rfl).2 rfl (by decide)⟩

/-- What `nextMatch` finds is the earliest matching timestamp strictly
above the reference time. -/
theorem nextMatch_spec (matchesP : Nat → Bool) (t fuel d : Nat)
    (h : nextMatch matchesP t fuel = some d) :
    t < d ∧ matchesP d = true ∧
      ∀ u, t < u → u < d → matchesP u = false := by
  induction fuel generalizing t with
  | zero => simp [nextMatch] at h
  | succ n ih =>
    unfold nextMatch at h
    by_cases hm : matchesP (t + 1) = true
    · rw [if_pos hm] at h
      obtain rfl : t + 1 = d := by injection h
      refine ⟨Nat.lt_succ_self t, hm, ?_⟩
      intro u hu₁ hu₂
      exact absurd hu₂ (Nat.not_lt.mpr hu₁)
    · rw [if_neg hm] at h
      obtain ⟨hlt, hmd, hmin⟩ := ih (t + 1) h
      refine ⟨Nat.lt_of_succ_lt hlt, hmd, ?_⟩
      intro u hu₁ hu₂
      rcases Nat.eq_or_lt_of_le (Nat.succ_le_of_lt hu₁) with he | hgt
      · rw [← he]
        cases hb : matchesP (t + 1) with
        | false => rfl
        | true => exact absurd hb hm
      · exact hmin u hgt hu₂

/-- C6: after a successful `scheduleTask`, `getTaskInfo` reports status
`"scheduled"` and a `nextRun` strictly greater than the clock reading at
scheduling time; the (spec-modelled) next-run computation yields the
earliest timestamp strictly greater than its reference time that matches
the expression in the configured timezone. -/
theorem C6_nextRun_future {ρ : Type} (validate : String → Bool)
    (matchesP : String → String → Nat → Bool) (fuel : Nat)
    (s : SchedulerState ρ) (taskId schedule : String)
    (task : HandlerArg ρ) (options : OptionsArg) (now d : Nat)
    (hd : mapHas s.tasks taskId = false)
    (hl : s.tasks.length < s.maxTasks)
    (hv : validate schedule = true)
    (hm : nextDateOf matchesP fuel schedule (options.effective).timezone now
        = some d) :
    (scheduleTask validate (nextDateOf matchesP fuel) s taskId schedule
        task options now).2 = ScheduleResult.ok taskId d ∧
    getTaskInfo (scheduleTask validate (nextDateOf matchesP fuel) s taskId
        schedule task options now).1 taskId
      = InfoResult.ok
          { id := taskId, schedule := schedule, status := "scheduled",
            created := now, lastRun := none, nextRun := some d,
            options := options.effective,
            stats := { runs := 0, errors := 0 } } ∧
    now < d ∧
    matchesP schedule (options.effective).timezone d = true ∧
    (∀ u, now < u → u < d →
      matchesP schedule (options.effective).timezone u = false) := by
  have hcalc : calculateNextRun (nextDateOf matchesP fuel) schedule
      (options.effective).timezone now = d := by
    unfold calculateNextRun
    rw [hm]
  have hs := scheduleTask_success validate (nextDateOf matchesP fuel) s
    taskId schedule task options now hd hl hv
  rw [hcalc] at hs
  obtain ⟨hlt, hmd, hmin⟩ := nextMatch_spec
    (matchesP schedule (options.effective).timezone) now fuel d hm
  refine ⟨?_, ?_, hlt, hmd, hmin⟩
  · rw [hs]
  · rw [hs]
    unfold getTaskInfo
    rw [mapGet?_set_self]
    rfl

/-- Witness for C6: scheduling `"t1"` on the empty state with a matching
predicate that accepts every timestamp finds `nextRun = 1 > 0`. -/
theorem C6_nextRun_future_witness :
    mapHas emptyState.tasks "t1" = false ∧
    emptyState.tasks.length < emptyState.maxTasks ∧
    allValid "* * * * *" = true ∧
    nextDateOf (fun _ _ _ => true) 1 "* * * * *" "UTC" 0 = some 1 ∧
    (scheduleTask allValid (nextDateOf (fun _ _ _ => true) 1) emptyState
        "t1" "* * * * *" (HandlerArg.func (Outcome.ok 0)) ⟨none, none⟩
        0).2 = ScheduleResult.ok "t1" 1 ∧
    (0 : Nat) < 1 :=
  ⟨rfl, by decide, rfl, rfl,
    (C6_nextRun_future allValid (fun _ _ _ => true) 1 emptyState "t1"
      "* * * * *" (HandlerArg.func (Outcome.ok 0)) ⟨none, none⟩ 0 1
      rfl (by decide) rfl rfl).1,
    by decide⟩

/-- C7: for every registered taskId, `deleteTask` succeeds and removes the
record from the registry entirely, so every subsequent `getTaskInfo`,
`runTask`, `cancelTask` or `deleteTask` on that id reports the
task-not-found error (and leaves the state unchanged) until the id is
re-registered. -/
theorem C7_deleteTask_removes {ρ : Type}
    (nextDate : String → String → Nat → Option Nat)
    (s : SchedulerState ρ) (taskId : String) (now : Nat) (t : Task ρ)
    (ht : mapGet? s.tasks taskId = some t) :
    (deleteTask s taskId).2 = OpResult.ok taskId ∧
    mapGet? (deleteTask s taskId).1.tasks taskId = none ∧
    getTaskInfo (deleteTask s taskId).1 taskId
      = InfoResult.err "Task not found" ∧
    runTask nextDate (deleteTask s taskId).1 taskId now
      = ((deleteTask s taskId).1, RunResult.err "Task not found") ∧
    cancelTask (deleteTask s taskId).1 taskId
      = ((deleteTask s taskId).1, OpResult.err "Task not found") ∧
    deleteTask (deleteTask s taskId).1 taskId
      = ((deleteTask s taskId).1, OpResult.err "Task not found") := by
  have hok : (deleteTask s taskId).2 = OpResult.ok taskId := by
    unfold deleteTask
    rw [ht]
  have hgone : mapGet? (deleteTask s taskId).1.tasks taskId = none := by
    unfold deleteTask
    rw [ht]
    exact mapGet?_delete_self _ _
  exact ⟨hok, hgone, getTaskInfo_not_found _ _ hgone,
    runTask_not_found _ _ _ _ hgone, cancelTask_not_found _ _ hgone,
    deleteTask_not_found _ _ hgone⟩

/-- Witness for C7: deleting `"t1"` from `sampleState`, then looking it
up. -/
theorem C7_deleteTask_removes_witness :
    mapGet? sampleState.tasks "t1" = some okTask ∧
    (deleteTask sampleState "t1").2 = OpResult.ok "t1" ∧
    getTaskInfo (deleteTask sampleState "t1").1 "t1"
      = InfoResult.err "Task not found" :=
  ⟨rfl,
    (C7_deleteTask_removes succNext sampleState "t1" 0 okTask rfl).1,
    (C7_deleteTask_removes succNext sampleState "t1" 0 okTask rfl).2.2.1⟩

/-- C8: `scheduleTask` never validates the handler argument: a
non-function `task` value still registers successfully, storing its
(possibly `undefined`) `run` property as the handler, and the mistake only
surfaces at execution time, when `runTask` catches the invocation
`TypeError` and marks the task `"failed"`. -/
theorem C8_no_handler_validation {ρ : Type} (validate : String → Bool)
    (nextDate : String → String → Nat → Option Nat)
    (s : SchedulerState ρ) (taskId schedule : String)
    (options : OptionsArg) (now now₂ : Nat)
    (hd : mapHas s.tasks taskId = false)
    (hl : s.tasks.length < s.maxTasks)
    (hv : validate schedule = true) :
    (∀ r : Option (Outcome ρ),
      (scheduleTask validate nextDate s taskId schedule (HandlerArg.obj r)
          options now).2
        = ScheduleResult.ok taskId (calculateNextRun nextDate schedule
            (options.effective).timezone now) ∧
      ∃ t, mapGet? (scheduleTask validate nextDate s taskId schedule
          (HandlerArg.obj r) options now).1.tasks taskId = some t ∧
        t.task = r) ∧
    ((runTask nextDate (scheduleTask validate nextDate s taskId schedule
        (HandlerArg.obj none) options now).1 taskId now₂).2
      = RunResult.fail taskId "taskObj.task is not a function" ∧
     ∃ t₂, mapGet? (runTask nextDate (scheduleTask validate nextDate s
          taskId schedule (HandlerArg.obj none) options now).1 taskId
          now₂).1.tasks taskId = some t₂ ∧
       t₂.status = "failed" ∧ t₂.stats.errors = 1) := by
  constructor
  · intro r
    rw [scheduleTask_success validate nextDate s taskId schedule
      (HandlerArg.obj r) options now hd hl hv]
    exact ⟨rfl, _, mapGet?_set_self _ _ _, rfl⟩
  · rw [scheduleTask_success validate nextDate s taskId schedule
      (HandlerArg.obj none) options now hd hl hv]
    unfold runTask
    rw [mapGet?_set_self]
    dsimp only [Task.markRunning, HandlerArg.extract, runTaskFailure]
    exact ⟨rfl, _, mapGet?_set_self _ _ _, rfl, rfl⟩

/-- Witness for C8: scheduling `"t1"` on the empty state with an object
lacking a `run` method, then running it. -/
theorem C8_no_handler_validation_witness :
    mapHas emptyState.tasks "t1" = false ∧
    emptyState.tasks.length < emptyState.maxTasks ∧
    allValid "* * * * *" = true ∧
    (runTask succNext (scheduleTask allValid succNext emptyState "t1"
        "* * * * *" (HandlerArg.obj none) ⟨none, none⟩ 0).1 "t1" 1).2
      = RunResult.fail "t1" "taskObj.task is not a function" :=
  ⟨rfl, by decide, rfl,
    (C8_no_handler_validation allValid succNext emptyState "t1"
      "* * * * *" ⟨none, none⟩ 0 1 rfl (by decide) rfl).2.1⟩

/-- C9: the `"cancelled"` state does not block manual execution:
`runTask` on a cancelled task still invokes the handler, passes the task
through `"running"`, and leaves it `"completed"` or `"failed"` — one more
handler invocation is tallied in its per-task stats — while the stopped
trigger handle stays exactly as it was. -/
theorem C9_cancelled_still_runs {ρ : Type}
    (nextDate : String → String → Nat → Option Nat)
    (s : SchedulerState ρ) (taskId : String) (now : Nat) (t : Task ρ)
    (ht : mapGet? s.tasks taskId = some t)
    (hc : t.status = "cancelled") :
    (t.markRunning now).status = "running" ∧
    ∃ t₂, mapGet? (runTask nextDate s taskId now).1.tasks taskId = some t₂ ∧
      (t₂.status = "completed" ∨ t₂.status = "failed") ∧
      t₂.stats.runs + t₂.stats.errors
        = t.stats.runs + t.stats.errors + 1 ∧
      t₂.cronActive = t.cronActive := by
  refine ⟨rfl, ?_⟩
  unfold runTask
  rw [ht]
  dsimp only [Task.markRunning]
  cases t.task with
  | none =>
    dsimp only [runTaskFailure]
    exact ⟨_, mapGet?_set_self _ _ _, Or.inr rfl, rfl, rfl⟩
  | some o =>
    cases o with
    | ok r =>
      exact ⟨_, mapGet?_set_self _ _ _, Or.inl rfl, Nat.succ_add _ _, rfl⟩
    | error e =>
      dsimp only [runTaskFailure]
      exact ⟨_, mapGet?_set_self _ _ _, Or.inr rfl, rfl, rfl⟩

/-- The record of `"t1"` after cancelling it in `sampleState`. -/
def cancelledTask : Task Nat :=
  { okTask with status := "cancelled", cronActive := false }

/-- Witness for C9: cancel `"t1"` in `sampleState`, then run it
manually. -/
theorem C9_cancelled_still_runs_witness :
    mapGet? (cancelTask sampleState "t1").1.tasks "t1"
      = some cancelledTask ∧
    cancelledTask.status = "cancelled" ∧
    ∃ t₂, mapGet? (runTask succNext (cancelTask sampleState "t1").1 "t1"
        2).1.tasks "t1" = some t₂ ∧
      (t₂.status = "completed" ∨ t₂.status = "failed") := by
  refine ⟨rfl, rfl, ?_⟩
  obtain ⟨-, t₂, hget, hst, -, -⟩ := C9_cancelled_still_runs succNext
    (cancelTask sampleState "t1").1 "t1" 2 cancelledTask rfl rfl
  exact ⟨t₂, hget, hst⟩

/-- C10: `deleteTask` changes none of the five service-wide counters
reported by `getStats`; no operation ever decrements the `scheduled`
counter, so it records lifetime registrations and can exceed
`taskCount` (third conjunct: a concrete schedule-then-delete run). -/
theorem C10_delete_counter_frame {ρ : Type} :
    (∀ (s : SchedulerState ρ) (taskId : String),
      (getStats (deleteTask s taskId).1).scheduled
        = (getStats s).scheduled ∧
      (getStats (deleteTask s taskId).1).running = (getStats s).running ∧
      (getStats (deleteTask s taskId).1).completed
        = (getStats s).completed ∧
      (getStats (deleteTask s taskId).1).failed = (getStats s).failed ∧
      (getStats (deleteTask s taskId).1).cancelled
        = (getStats s).cancelled) ∧
    (∀ (validate : String → Bool)
       (nextDate : String → String → Nat → Option Nat)
       (s : SchedulerState ρ) (taskId schedule : String)
       (task : HandlerArg ρ) (options : OptionsArg) (now : Nat),
      s.stats.scheduled
        ≤ (scheduleTask validate nextDate s taskId schedule task options
            now).1.stats.scheduled ∧
      s.stats.scheduled
        = (runTask nextDate s taskId now).1.stats.scheduled ∧
      s.stats.scheduled = (cancelTask s taskId).1.stats.scheduled ∧
      s.stats.scheduled = (deleteTask s taskId).1.stats.scheduled) ∧
    (getStats (deleteTask (scheduleTask allValid succNext emptyState "t1"
        "* * * * *" (HandlerArg.func (Outcome.ok 0)) ⟨none, none⟩ 0).1
        "t1").1).taskCount
      < (getStats (deleteTask (scheduleTask allValid succNext emptyState
        "t1" "* * * * *" (HandlerArg.func (Outcome.ok 0)) ⟨none, none⟩
        0).1 "t1").1).scheduled := by
  refine ⟨?_, ?_, ?_⟩
  · intro s taskId
    unfold deleteTask getStats
    cases mapGet? s.tasks taskId <;> exact ⟨rfl, rfl, rfl, rfl, rfl⟩
  · intro validate nextDate s taskId schedule task options now
    refine ⟨?_, ?_, ?_, ?_⟩
    · by_cases h₁ : mapHas s.tasks taskId = true
      · unfold scheduleTask
        simp [h₁]
      · by_cases h₂ : s.maxTasks ≤ s.tasks.length
        · unfold scheduleTask
          simp [(by simpa using h₁ : mapHas s.tasks taskId = false), h₂]
        · by_cases h₃ : validate schedule = true
          · rw [scheduleTask_success validate nextDate s taskId schedule
              task options now (by simpa using h₁) (Nat.lt_of_not_le h₂)
              h₃]
            exact Nat.le_succ _
          · unfold scheduleTask
            simp [(by simpa using h₁ : mapHas s.tasks taskId = false), h₂,
              (by simpa using h₃ : validate schedule = false)]
    · unfold runTask
      cases mapGet? s.tasks taskId with
      | none => rfl
      | some t =>
        dsimp only [Task.markRunning]
        cases t.task with
        | none => rfl
        | some o => cases o <;> rfl
    · unfold cancelTask
      cases mapGet? s.tasks taskId <;> rfl
    · unfold deleteTask
      cases mapGet? s.tasks taskId <;> rfl
  · decide

end TaskScheduler
